import Mathlib

/-!
Verification of the `inline-python` Context core
(`src/inline-python/src/context.rs`) against its specification.

The embedding models the Python interpreter's state as a heap of
dictionary objects (so that object identity of a Context's globals
dictionary is expressible), the GIL as an explicit proof-of-lock token
plus an acquire/release event trace, and panics as explicit outcome
constructors carrying the printed diagnostic and the panic message.
-/

set_option autoImplicit false

/-- A Python value, as far as the marshaling boundary needs to see it. -/
inductive PyObj : Type where
  | int : Int → PyObj
  | str : String → PyObj
  | bool : Bool → PyObj
  | pyNone : PyObj
  deriving DecidableEq

/-- A Python interpreter error (`PyErr`), reduced to its diagnostic text. -/
abbrev PyErr := String

/-- A Python dictionary: an association list from names to values.
`getItem` and `setItem` mirror `PyDict::get_item` / `PyDict::set_item`. -/
abbrev Dict := List (String × PyObj)

/-- `PyDict::get_item`: first binding of the key, if any. -/
def Dict.getItem : Dict → String → Option PyObj
  | [], _ => none
  | (k', v) :: rest, k => if k' = k then some v else Dict.getItem rest k

/-- `PyDict::set_item`: overwrite the binding of the key, or append it. -/
def Dict.setItem : Dict → String → PyObj → Dict
  | [], k, v => [(k, v)]
  | (k', v') :: rest, k, v =>
      if k' = k then (k, v) :: rest else (k', v') :: Dict.setItem rest k v

/-- `PyDict_Merge(dst, src, 0)`: copy each entry of `src` whose key is not
already bound in `dst`; existing keys of `dst` are left untouched. -/
def Dict.merge (dst src : Dict) : Dict :=
  src.foldl (fun acc p => if (acc.getItem p.1).isSome then acc else acc.setItem p.1 p.2) dst

/-- The interpreter's heap of dictionary objects.  A dictionary's index in
this list is its object identity; `Context.globals` stores such an index. -/
structure Interp : Type where
  dicts : List Dict
  deriving DecidableEq

/-- Read the dictionary object at index `i` of the heap. -/
def Interp.readDict (st : Interp) (i : Nat) : Dict :=
  st.dicts.getD i []

/-- Mutate the dictionary object at index `i` of the heap in place. -/
def Interp.writeDict (st : Interp) (i : Nat) (d : Dict) : Interp :=
  ⟨st.dicts.set i d⟩

/-- Allocate a fresh dictionary object (`PyDict::new`), returning the
extended heap and the new object's identity. -/
def Interp.alloc (st : Interp) (d : Dict) : Interp × Nat :=
  (⟨st.dicts ++ [d]⟩, st.dicts.length)

/-- Proof of holding the GIL: the `Python<'p>` token of pyo3. -/
inductive Gil : Type where
  | token
  deriving DecidableEq

/-- A lock event on the GIL, recorded by the lock-acquiring convenience
forms of the API. -/
inductive GilEvent : Type where
  | acquire
  | release
  deriving DecidableEq

/-- `Python::acquire_gil()` scoping: run `f` with the GIL held and record
that the lock was taken for the duration of the call and then released. -/
def withGil {α : Type} (f : Gil → α) : α × List GilEvent :=
  (f Gil.token, [GilEvent.acquire, GilEvent.release])

/-- An execution context for Python code: owns (a pointer to) its globals
dictionary, and nothing else (`pub struct Context { globals: PyObject }`). -/
structure Context : Type where
  globals : Nat
  deriving DecidableEq

/-- The outside-the-core inputs of context bootstrap: whether
`PyImport_AddModule("__main__")` finds the main module (and that module's
dictionary), and whether `PyDict_Merge` signals a failure.  In both failure
cases the code fetches the pending interpreter error (`PyErr::fetch`). -/
structure BootstrapEnv : Type where
  mainDict : Option Dict
  mergeFails : Bool
  fetchedErr : PyErr
  deriving DecidableEq

/-- `Context::new_with_gil`: locate the `__main__` module's dictionary and
merge it (without overwriting) into a freshly allocated empty dictionary;
error out if the module cannot be located or the merge fails. -/
def Context.new_with_gil (_gil : Gil) (env : BootstrapEnv) (st : Interp) :
    Except PyErr (Interp × Context) :=
  match env.mainDict with
  | none => .error env.fetchedErr
  | some md =>
      if env.mergeFails then .error env.fetchedErr
      else
        let (st', i) := st.alloc (Dict.merge [] md)
        .ok (st', { globals := i })

/-- Outcome of `Context::new`: a context, or a panic after printing the
interpreter error. -/
inductive NewOutcome : Type where
  | ok : Interp → Context → NewOutcome
  | panicked : PyErr → String → NewOutcome
  deriving DecidableEq

/-- `Context::new`: acquire the GIL, bootstrap via `new_with_gil`, and on
error print it and panic with `"failed to create python context"`. -/
def Context.new (env : BootstrapEnv) (st : Interp) : NewOutcome × List GilEvent :=
  withGil fun gil =>
    match Context.new_with_gil gil env st with
    | .ok (st', c) => NewOutcome.ok st' c
    | .error e => NewOutcome.panicked e "failed to create python context"

/-- `Context::new_checked`: acquire the GIL and return `new_with_gil`'s
result unchanged. -/
def Context.new_checked (env : BootstrapEnv) (st : Interp) :
    Except PyErr (Interp × Context) × List GilEvent :=
  withGil fun gil => Context.new_with_gil gil env st

/-- The marshaling capability for one host type `α`: host-to-Python
conversion (`ToPyObject`), Python-to-host extraction (`FromPyObject`,
fallible), and the host type's name (`std::any::type_name`). -/
structure Marshal (α : Type) : Type where
  toPy : α → PyObj
  fromPy : PyObj → Except PyErr α
  tyName : String

/-- Outcome of `Context::get`: the extracted value, or a panic carrying the
diagnostic printed beforehand (if any) and the panic message. -/
inductive GetOutcome (α : Type) : Type where
  | ok : α → GetOutcome α
  | panicked : Option PyErr → String → GetOutcome α

/-- The panic message of `get` when the name is absent from the namespace. -/
def missingMsg (name : String) : String :=
  "Python context does not contain a variable named `" ++ name ++ "`"

/-- The panic message of `get` when extraction to the host type fails. -/
def convertMsg (name tyName : String) : String :=
  "Unable to convert `" ++ name ++ "` to `" ++ tyName ++ "`"

/-- `Context::get_with_gil`: look `name` up in the globals dictionary;
panic naming the variable if absent; otherwise extract to the host type,
printing the error and panicking (naming variable and type) on failure.
The interpreter state is returned unchanged: the operation only reads. -/
def Context.get_with_gil {α : Type} (_gil : Gil) (st : Interp) (c : Context)
    (m : Marshal α) (name : String) : Interp × GetOutcome α :=
  (st,
    match (st.readDict c.globals).getItem name with
    | none => GetOutcome.panicked none (missingMsg name)
    | some v =>
        match m.fromPy v with
        | .ok value => GetOutcome.ok value
        | .error e => GetOutcome.panicked (some e) (convertMsg name m.tyName))

/-- `Context::get`: acquire the GIL and delegate to `get_with_gil`. -/
def Context.get {α : Type} (st : Interp) (c : Context) (m : Marshal α)
    (name : String) : (Interp × GetOutcome α) × List GilEvent :=
  withGil fun gil => Context.get_with_gil gil st c m name

/-- `Context::set_with_gil`: bind `name` to the converted value in the
globals dictionary, overwriting any existing binding.  (`set_item` with a
string key cannot fail, so the panic branch of the source is dead.) -/
def Context.set_with_gil (_gil : Gil) (st : Interp) (c : Context)
    (name : String) (value : PyObj) : Interp :=
  st.writeDict c.globals ((st.readDict c.globals).setItem name value)

/-- `Context::set`: acquire the GIL and delegate to `set_with_gil`. -/
def Context.set (st : Interp) (c : Context) (name : String) (value : PyObj) :
    Interp × List GilEvent :=
  withGil fun gil => Context.set_with_gil gil st c name value

/-- Modelled from the spec: the `python!` macro and `run.rs` are not part
of the covered source.  A `PythonBlock`'s `set_variables` closure is
modelled, as §9 of the spec directs, as the list of captured
(name, value) pairs it writes into the namespace, and its compiled
`bytecode`, executed by the Runner with the namespace as both read and
write scope, as a function from the namespace to the mutated namespace
together with the interpreter error it raised, if any. -/
structure PythonBlock : Type where
  set_variables : List (String × PyObj)
  bytecode : Dict → Dict × Option PyErr

/-- Capture injection: write every captured variable into the namespace,
in order, via `set_item` (the same marshaling boundary `set` uses). -/
def injectCaptures (d : Dict) (vars : List (String × PyObj)) : Dict :=
  vars.foldl (fun acc p => acc.setItem p.1 p.2) d

/-- Outcome of `Context::run`: unit on success, or a panic carrying the
printed interpreter diagnostic and the panic message. -/
inductive RunOutcome : Type where
  | ok : RunOutcome
  | panicked : PyErr → String → RunOutcome
  deriving DecidableEq

/-- The panic message of a failed `run`. -/
def runFailMsg : String := "python!\x7b...\x7d failed to execute"

/-- `Context::run_with_gil`: invoke the block's capture injection on the
globals dictionary, then execute its bytecode against that same
dictionary; on success return nothing, on interpreter failure print the
error and panic.  The namespace keeps every mutation made up to the
failure. -/
def Context.run_with_gil (_gil : Gil) (st : Interp) (c : Context)
    (code : PythonBlock) : Interp × RunOutcome :=
  let st' := st.writeDict c.globals (injectCaptures (st.readDict c.globals) code.set_variables)
  let r := code.bytecode (st'.readDict c.globals)
  (st'.writeDict c.globals r.1,
    match r.2 with
    | none => RunOutcome.ok
    | some e => RunOutcome.panicked e runFailMsg)

/-- `Context::run`: acquire the GIL and delegate to `run_with_gil`. -/
def Context.run (st : Interp) (c : Context) (code : PythonBlock) :
    (Interp × RunOutcome) × List GilEvent :=
  withGil fun gil => Context.run_with_gil gil st c code

/-- One step of a client's interaction with a context: a `set` call or a
`run` call (the operations that mutate the namespace). -/
inductive Op : Type where
  | set : String → PyObj → Op
  | run : PythonBlock → Op

/-- Apply one operation to the interpreter state. -/
def Context.applyOp (gil : Gil) (c : Context) (st : Interp) : Op → Interp
  | .set n v => Context.set_with_gil gil st c n v
  | .run code => (Context.run_with_gil gil st c code).1

/-- Apply a sequence of operations to the interpreter state. -/
def Context.applyOps (gil : Gil) (c : Context) (st : Interp) (ops : List Op) : Interp :=
  ops.foldl (Context.applyOp gil c) st

/-- An operation leaves the binding of `n` alone: a `set` under a different
name, or a `run` whose captures do not include `n` and whose scripted code
never rebinds `n`. -/
def Op.preserves (n : String) : Op → Prop
  | .set m _ => m ≠ n
  | .run code =>
      (∀ p ∈ code.set_variables, p.1 ≠ n) ∧
      ∀ d : Dict, ((code.bytecode d).1.getItem n) = d.getItem n

/-- Modelled from the spec: pyo3's `ToPyObject`/`FromPyObject`
implementations for Rust integer types (not part of the covered source)
convert to and from Python integers. -/
def intMarshal : Marshal Int :=
  { toPy := PyObj.int
    fromPy := fun v =>
      match v with
      | PyObj.int n => .ok n
      | _ => .error "TypeError"
    tyName := "i64" }

/-- Modelled from the spec: pyo3's string conversions (not part of the
covered source) convert to and from Python strings. -/
def strMarshal : Marshal String :=
  { toPy := PyObj.str
    fromPy := fun v =>
      match v with
      | PyObj.str s => .ok s
      | _ => .error "TypeError"
    tyName := "alloc::string::String" }

/-! ### Basic lemmas about dictionaries and the heap -/

theorem Dict.getItem_setItem_self (d : Dict) (k : String) (v : PyObj) :
    (d.setItem k v).getItem k = some v := by
  induction d with
  | nil => simp [Dict.setItem, Dict.getItem]
  | cons p rest ih =>
      obtain ⟨k', v'⟩ := p
      by_cases h : k' = k
      · simp [Dict.setItem, h, Dict.getItem]
      · simp [Dict.setItem, h, Dict.getItem, ih]

theorem Dict.getItem_setItem_ne (d : Dict) (k k' : String) (v : PyObj)
    (h : k ≠ k') : (d.setItem k v).getItem k' = d.getItem k' := by
  induction d with
  | nil => simp [Dict.setItem, Dict.getItem, h]
  | cons p rest ih =>
      obtain ⟨k0, v0⟩ := p
      by_cases hk : k0 = k
      · subst hk
        simp [Dict.setItem, Dict.getItem, h]
      · simp [Dict.setItem, hk, Dict.getItem, ih]

theorem injectCaptures_cons (d : Dict) (p : String × PyObj)
    (rest : List (String × PyObj)) :
    injectCaptures d (p :: rest) = injectCaptures (d.setItem p.1 p.2) rest := rfl

theorem injectCaptures_getItem_ne (vars : List (String × PyObj)) (d : Dict)
    (n : String) (h : ∀ p ∈ vars, p.1 ≠ n) :
    (injectCaptures d vars).getItem n = d.getItem n := by
  induction vars generalizing d with
  | nil => rfl
  | cons p rest ih =>
      rw [injectCaptures_cons, ih _ (fun q hq => h q (List.mem_cons_of_mem p hq)),
        Dict.getItem_setItem_ne _ _ _ _ (h p (List.mem_cons_self p rest))]

theorem list_getD_set_self {α : Type} (l : List α) (i : Nat) (a dflt : α)
    (h : i < l.length) : (l.set i a).getD i dflt = a := by
  induction l generalizing i with
  | nil => simp at h
  | cons x xs ih =>
      cases i with
      | zero => rfl
      | succ j => exact ih j (Nat.lt_of_succ_lt_succ h)

theorem list_getD_set_ne {α : Type} (l : List α) (i j : Nat) (a dflt : α)
    (h : i ≠ j) : (l.set i a).getD j dflt = l.getD j dflt := by
  induction l generalizing i j with
  | nil => rfl
  | cons x xs ih =>
      cases i with
      | zero =>
          cases j with
          | zero => exact absurd rfl h
          | succ j' => rfl
      | succ i' =>
          cases j with
          | zero => rfl
          | succ j' => exact ih i' j' (fun hij => h (by rw [hij]))

theorem Interp.readDict_writeDict_self (st : Interp) (i : Nat) (d : Dict)
    (h : i < st.dicts.length) : (st.writeDict i d).readDict i = d :=
  list_getD_set_self st.dicts i d [] h

theorem Interp.readDict_writeDict_ne (st : Interp) (i j : Nat) (d : Dict)
    (h : i ≠ j) : (st.writeDict i d).readDict j = st.readDict j :=
  list_getD_set_ne st.dicts i j d [] h

theorem Interp.length_writeDict (st : Interp) (i : Nat) (d : Dict) :
    (st.writeDict i d).dicts.length = st.dicts.length := by
  simp [Interp.writeDict]

theorem Dict.getItem_merge (dst src : Dict) (k : String) :
    (Dict.merge dst src).getItem k =
      if (dst.getItem k).isSome then dst.getItem k else src.getItem k := by
  induction src generalizing dst with
  | nil =>
      by_cases h : (dst.getItem k).isSome
      · simp [Dict.merge, h]
      · simp [Dict.merge, h]
        rw [Option.not_isSome_iff_eq_none] at h
        exact h
  | cons p rest ih =>
      have hstep : Dict.merge dst (p :: rest) =
          Dict.merge (if (dst.getItem p.1).isSome then dst else dst.setItem p.1 p.2) rest := rfl
      rw [hstep]
      by_cases hd : (dst.getItem p.1).isSome
      · rw [if_pos hd, ih]
        by_cases hk : (dst.getItem k).isSome
        · simp [hk]
        · by_cases hpk : p.1 = k
          · rw [hpk] at hd
            exact absurd hd hk
          · simp [hk, Dict.getItem, hpk]
      · rw [if_neg hd, ih]
        by_cases hpk : p.1 = k
        · subst hpk
          rw [Option.not_isSome_iff_eq_none] at hd
          simp [hd, Dict.getItem_setItem_self, Dict.getItem]
        · rw [Dict.getItem_setItem_ne _ _ _ _ hpk]
          by_cases hk : (dst.getItem k).isSome
          · simp [hk]
          · simp [hk, Dict.getItem, hpk]

/-! ### Claim theorems -/

/-- C9: every public operation needing the interpreter lock exists in a
pair: `new`, `new_checked`, `get`, `set` and `run` acquire the GIL for the
duration of the call and release it on completion, while the `_with_gil`
forms take the proof-of-lock token as a parameter and perform no
acquisition; apart from the lock handling the two forms behave
identically. -/
theorem gil_pairing {α : Type} (gil : Gil) (st : Interp) (c : Context)
    (m : Marshal α) (name : String) (v : PyObj) (code : PythonBlock)
    (env : BootstrapEnv) :
    Context.get st c m name =
      (Context.get_with_gil gil st c m name, [GilEvent.acquire, GilEvent.release])
    ∧ Context.set st c name v =
      (Context.set_with_gil gil st c name v, [GilEvent.acquire, GilEvent.release])
    ∧ Context.run st c code =
      (Context.run_with_gil gil st c code, [GilEvent.acquire, GilEvent.release])
    ∧ Context.new_checked env st =
      (Context.new_with_gil gil env st, [GilEvent.acquire, GilEvent.release])
    ∧ Context.new env st =
      (match Context.new_with_gil gil env st with
       | .ok (st', c') => NewOutcome.ok st' c'
       | .error e => NewOutcome.panicked e "failed to create python context",
       [GilEvent.acquire, GilEvent.release]) := by
  cases gil
  exact ⟨rfl, rfl, rfl, rfl, rfl⟩

/-- C5: `new_with_gil` bootstraps the Namespace by locating the
interpreter's `__main__` namespace and merging its entries into a freshly
allocated empty dictionary; the merged result binds exactly what the
default namespace binds, the merge never overwrites keys already present
in the destination, and an error is returned when the default namespace
cannot be located or the merge fails. -/
theorem new_with_gil_bootstrap (gil : Gil) (env : BootstrapEnv) (st : Interp) :
    (env.mainDict = none →
      Context.new_with_gil gil env st = Except.error env.fetchedErr)
    ∧ (∀ md, env.mainDict = some md → env.mergeFails = true →
        Context.new_with_gil gil env st = Except.error env.fetchedErr)
    ∧ (∀ md, env.mainDict = some md → env.mergeFails = false →
        Context.new_with_gil gil env st =
          Except.ok (⟨st.dicts ++ [Dict.merge [] md]⟩, ⟨st.dicts.length⟩)
        ∧ ∀ k, (Dict.merge [] md).getItem k = md.getItem k)
    ∧ (∀ dst src : Dict, ∀ k, (dst.getItem k).isSome →
        (Dict.merge dst src).getItem k = dst.getItem k) := by
  refine ⟨?_, ?_, ?_, ?_⟩
  · intro h
    simp [Context.new_with_gil, h]
  · intro md hmd hmf
    simp [Context.new_with_gil, hmd, hmf]
  · intro md hmd hmf
    refine ⟨by simp [Context.new_with_gil, hmd, hmf, Interp.alloc], ?_⟩
    intro k
    rw [Dict.getItem_merge]
    simp [Dict.getItem]
  · intro dst src k h
    rw [Dict.getItem_merge, if_pos h]

/-- Witness for C5 at a concrete environment: bootstrapping from a main
namespace binding `k ↦ 0` allocates a fresh dictionary holding exactly
that binding. -/
theorem new_with_gil_bootstrap_witness :
    Context.new_with_gil Gil.token ⟨some [("k", PyObj.int 0)], false, "E"⟩ ⟨[]⟩ =
      Except.ok (⟨[[("k", PyObj.int 0)]]⟩, ⟨0⟩) := by
  have h := (new_with_gil_bootstrap Gil.token
    ⟨some [("k", PyObj.int 0)], false, "E"⟩ ⟨[]⟩).2.2.1 [("k", PyObj.int 0)] rfl rfl
  exact h.1.trans (by rfl)

/-- C6: on bootstrap failure `new` reports the interpreter error and
panics with `"failed to create python context"`, while `new_checked`
returns the same error as a recoverable result; on success both return
the same freshly bootstrapped context. -/
theorem new_pairs_new_checked (env : BootstrapEnv) (st : Interp) :
    (∀ e, Context.new_with_gil Gil.token env st = Except.error e →
        (Context.new env st).1 = NewOutcome.panicked e "failed to create python context"
        ∧ (Context.new_checked env st).1 = Except.error e)
    ∧ (∀ st' c, Context.new_with_gil Gil.token env st = Except.ok (st', c) →
        (Context.new env st).1 = NewOutcome.ok st' c
        ∧ (Context.new_checked env st).1 = Except.ok (st', c)) := by
  constructor
  · intro e h
    constructor
    · simp [Context.new, withGil, h]
    · simp [Context.new_checked, withGil, h]
  · intro st' c h
    constructor
    · simp [Context.new, withGil, h]
    · simp [Context.new_checked, withGil, h]

/-- Witness for C6 at a concrete failing environment: when the main
module cannot be located, `new` panics with the fetched error and
`new_checked` returns it. -/
theorem new_pairs_new_checked_witness :
    (Context.new ⟨none, false, "boom"⟩ ⟨[]⟩).1 =
      NewOutcome.panicked "boom" "failed to create python context"
    ∧ (Context.new_checked ⟨none, false, "boom"⟩ ⟨[]⟩).1 = Except.error "boom" :=
  (new_pairs_new_checked ⟨none, false, "boom"⟩ ⟨[]⟩).1 "boom" rfl

theorem run_with_gil_eq (gil : Gil) (st : Interp) (c : Context)
    (code : PythonBlock) (hidx : c.globals < st.dicts.length) :
    Context.run_with_gil gil st c code =
      (st.writeDict c.globals
        (code.bytecode (injectCaptures (st.readDict c.globals) code.set_variables)).1,
       match (code.bytecode (injectCaptures (st.readDict c.globals) code.set_variables)).2 with
       | none => RunOutcome.ok
       | some e => RunOutcome.panicked e runFailMsg) := by
  show (_, _) = (_, _)
  rw [Interp.readDict_writeDict_self st c.globals _ hidx]
  show ((st.writeDict c.globals _).writeDict c.globals _, _) = (_, _)
  simp [Interp.writeDict, List.set_set]

/-- C3: `run_with_gil` first injects the block's captured variables into
the Context's Namespace, then executes the block's bytecode against that
same (already injected) Namespace; on success it returns no value, and on
interpreter failure it reports the raised error and panics with
`"python!{...} failed to execute"` instead of returning a recoverable
error. -/
theorem run_inject_then_execute (gil : Gil) (st : Interp) (c : Context)
    (code : PythonBlock) (hidx : c.globals < st.dicts.length) :
    Context.run_with_gil gil st c code =
      (st.writeDict c.globals
        (code.bytecode (injectCaptures (st.readDict c.globals) code.set_variables)).1,
       match (code.bytecode (injectCaptures (st.readDict c.globals) code.set_variables)).2 with
       | none => RunOutcome.ok
       | some e => RunOutcome.panicked e runFailMsg) :=
  run_with_gil_eq gil st c code hidx

/-- Witness for C3 at a concrete context and block: a block capturing
`x ↦ 13` whose code binds `foo` to `15` first injects `x`, then runs on
the injected namespace, and succeeds. -/
theorem run_inject_then_execute_witness :
    Context.run_with_gil Gil.token ⟨[[]]⟩ ⟨0⟩
      ⟨[("x", PyObj.int 13)], fun d => (d.setItem "foo" (PyObj.int 15), none)⟩ =
      ((⟨[[]]⟩ : Interp).writeDict 0
        ((PythonBlock.mk [("x", PyObj.int 13)]
            (fun d => (d.setItem "foo" (PyObj.int 15), none))).bytecode
          (injectCaptures ((⟨[[]]⟩ : Interp).readDict 0)
            [("x", PyObj.int 13)])).1,
       match ((PythonBlock.mk [("x", PyObj.int 13)]
            (fun d => (d.setItem "foo" (PyObj.int 15), none))).bytecode
          (injectCaptures ((⟨[[]]⟩ : Interp).readDict 0)
            [("x", PyObj.int 13)])).2 with
       | none => RunOutcome.ok
       | some e => RunOutcome.panicked e runFailMsg) :=
  run_inject_then_execute Gil.token ⟨[[]]⟩ ⟨0⟩
    ⟨[("x", PyObj.int 13)], fun d => (d.setItem "foo" (PyObj.int 15), none)⟩
    (by decide)

/-- C7: a failed `run` performs no rollback: when the block's code raises,
the reported outcome is the fatal one, and the Context's Namespace is left
exactly as the scripted code left it — with the injected captures and
every mutation the script completed before raising still in place. -/
theorem run_no_rollback (gil : Gil) (st : Interp) (c : Context)
    (captures : List (String × PyObj)) (f : Dict → Dict) (e : PyErr)
    (hidx : c.globals < st.dicts.length) :
    (Context.run_with_gil gil st c ⟨captures, fun d => (f d, some e)⟩).2 =
      RunOutcome.panicked e runFailMsg
    ∧ ((Context.run_with_gil gil st c ⟨captures, fun d => (f d, some e)⟩).1).readDict c.globals
        = f (injectCaptures (st.readDict c.globals) captures) := by
  rw [run_with_gil_eq gil st c _ hidx]
  constructor
  · rfl
  · exact Interp.readDict_writeDict_self st c.globals _ hidx

/-- Witness for C7 at a concrete failing block: the capture `x ↦ 13` and
the script's completed assignment `y ↦ 5` both survive the failure. -/
theorem run_no_rollback_witness :
    (Context.run_with_gil Gil.token ⟨[[]]⟩ ⟨0⟩
      ⟨[("x", PyObj.int 13)], fun d => (d.setItem "y" (PyObj.int 5), some "ZeroDivisionError")⟩).2 =
      RunOutcome.panicked "ZeroDivisionError" runFailMsg
    ∧ ((Context.run_with_gil Gil.token ⟨[[]]⟩ ⟨0⟩
      ⟨[("x", PyObj.int 13)], fun d => (d.setItem "y" (PyObj.int 5), some "ZeroDivisionError")⟩).1).readDict 0
        = Dict.setItem (injectCaptures ((⟨[[]]⟩ : Interp).readDict 0) [("x", PyObj.int 13)]) "y" (PyObj.int 5) :=
  run_no_rollback Gil.token ⟨[[]]⟩ ⟨0⟩ [("x", PyObj.int 13)]
    (fun d => d.setItem "y" (PyObj.int 5)) "ZeroDivisionError" (by decide)

/-- C4: `get_with_gil` leaves the interpreter state untouched and panics
with a message naming the missing variable exactly when the name is
absent from the Namespace; when the name is present it returns the
converted value on extraction success, and on extraction failure it
prints the interpreter error and panics naming both the variable and the
requested host type (both panic messages literally contain those
names). -/
theorem get_with_gil_cases {α : Type} (gil : Gil) (st : Interp) (c : Context)
    (m : Marshal α) (name : String) :
    (Context.get_with_gil gil st c m name).1 = st
    ∧ (((Context.get_with_gil gil st c m name).2 =
          GetOutcome.panicked none (missingMsg name))
        ↔ (st.readDict c.globals).getItem name = none)
    ∧ (∀ v, (st.readDict c.globals).getItem name = some v →
        (∀ a, m.fromPy v = Except.ok a →
          (Context.get_with_gil gil st c m name).2 = GetOutcome.ok a)
        ∧ (∀ e, m.fromPy v = Except.error e →
          (Context.get_with_gil gil st c m name).2 =
            GetOutcome.panicked (some e) (convertMsg name m.tyName)))
    ∧ (∃ pre post, missingMsg name = pre ++ (name ++ post))
    ∧ (∃ pre mid post,
        convertMsg name m.tyName = pre ++ (name ++ (mid ++ (m.tyName ++ post)))) := by
  refine ⟨rfl, ?_, ?_, ?_, ?_⟩
  · constructor
    · intro h
      cases hl : (st.readDict c.globals).getItem name with
      | none => rfl
      | some v =>
          exfalso
          simp [Context.get_with_gil, hl] at h
          cases hf : m.fromPy v with
          | ok a => rw [hf] at h; exact absurd h (by simp)
          | error e => rw [hf] at h; simp at h
    · intro h
      simp [Context.get_with_gil, h]
  · intro v hv
    constructor
    · intro a ha
      simp [Context.get_with_gil, hv, ha]
    · intro e he
      simp [Context.get_with_gil, hv, he]
  · exact ⟨"Python context does not contain a variable named `", "`",
      by simp [missingMsg, String.append_assoc]⟩
  · exact ⟨"Unable to convert `", "` to `", "`",
      by simp [convertMsg, String.append_assoc]⟩

/-- Witness for C4: on a namespace binding only `a ↦ 1`, getting `a` as an
integer succeeds with `1`, getting `a` as a string panics naming `a` and
the string type, and getting the absent `missing` panics naming it. -/
theorem get_with_gil_cases_witness :
    (Context.get_with_gil Gil.token ⟨[[("a", PyObj.int 1)]]⟩ ⟨0⟩ intMarshal "a").2 =
      GetOutcome.ok 1
    ∧ (Context.get_with_gil Gil.token ⟨[[("a", PyObj.int 1)]]⟩ ⟨0⟩ strMarshal "a").2 =
      GetOutcome.panicked (some "TypeError")
        (convertMsg "a" "alloc::string::String")
    ∧ (Context.get_with_gil Gil.token ⟨[[("a", PyObj.int 1)]]⟩ ⟨0⟩ intMarshal "missing").2 =
      GetOutcome.panicked none (missingMsg "missing") :=
  ⟨((get_with_gil_cases Gil.token ⟨[[("a", PyObj.int 1)]]⟩ ⟨0⟩ intMarshal
      "a").2.2.1 (PyObj.int 1) rfl).1 1 rfl,
   ((get_with_gil_cases Gil.token ⟨[[("a", PyObj.int 1)]]⟩ ⟨0⟩ strMarshal
      "a").2.2.1 (PyObj.int 1) rfl).2 "TypeError" rfl,
   (get_with_gil_cases Gil.token ⟨[[("a", PyObj.int 1)]]⟩ ⟨0⟩ intMarshal
      "missing").2.1.mpr rfl⟩

/-- C2: the set/get round-trip: for a host value whose marshaling
capability converts in both directions (extraction inverts conversion),
`set` followed by `get` under the same name on the same Context succeeds
and returns the original value. -/
theorem set_get_roundtrip {α : Type} (gil : Gil) (st : Interp) (c : Context)
    (m : Marshal α) (name : String) (v : α)
    (hidx : c.globals < st.dicts.length)
    (hround : m.fromPy (m.toPy v) = Except.ok v) :
    (Context.get_with_gil gil
        (Context.set_with_gil gil st c name (m.toPy v)) c m name).2 =
      GetOutcome.ok v := by
  have hread : ((Context.set_with_gil gil st c name (m.toPy v)).readDict c.globals) =
      (st.readDict c.globals).setItem name (m.toPy v) :=
    Interp.readDict_writeDict_self st c.globals _ hidx
  simp [Context.get_with_gil, hread, Dict.getItem_setItem_self, hround]

/-- Witness for C2: setting `x ↦ 42` through the integer marshaler and
reading it back returns `42`. -/
theorem set_get_roundtrip_witness :
    (Context.get_with_gil Gil.token
        (Context.set_with_gil Gil.token ⟨[[]]⟩ ⟨0⟩ "x" (intMarshal.toPy 42)) ⟨0⟩
        intMarshal "x").2 = GetOutcome.ok 42 :=
  set_get_roundtrip Gil.token ⟨[[]]⟩ ⟨0⟩ intMarshal "x" 42 (by decide) rfl

/-- C10: a successful `set` changes at most the binding of the written
name — every other binding of the same Namespace and every other
dictionary object of the interpreter are untouched — and `get_with_gil`
leaves the interpreter state (hence every binding) unchanged. -/
theorem set_frame_get_pure (α : Type) (gil : Gil) (st : Interp) (c : Context)
    (n : String) (v : PyObj) (m : Marshal α) (name : String)
    (hidx : c.globals < st.dicts.length) :
    (∀ k, k ≠ n →
      ((Context.set_with_gil gil st c n v).readDict c.globals).getItem k
        = (st.readDict c.globals).getItem k)
    ∧ (∀ j, j ≠ c.globals →
        (Context.set_with_gil gil st c n v).readDict j = st.readDict j)
    ∧ (Context.get_with_gil gil st c m name).1 = st := by
  refine ⟨?_, ?_, rfl⟩
  · intro k hk
    rw [show Context.set_with_gil gil st c n v =
        st.writeDict c.globals ((st.readDict c.globals).setItem n v) from rfl,
      Interp.readDict_writeDict_self st c.globals _ hidx,
      Dict.getItem_setItem_ne _ _ _ _ (Ne.symm hk)]
  · intro j hj
    exact Interp.readDict_writeDict_ne st c.globals j _ (Ne.symm hj)

/-- Witness for C10: writing `x` leaves the existing binding `b ↦ 7`
unchanged, and a `get` returns the state as it was. -/
theorem set_frame_get_pure_witness :
    ((Context.set_with_gil Gil.token ⟨[[("b", PyObj.int 7)]]⟩ ⟨0⟩ "x"
        (PyObj.int 1)).readDict 0).getItem "b"
      = (((⟨[[("b", PyObj.int 7)]]⟩ : Interp)).readDict 0).getItem "b"
    ∧ (Context.get_with_gil Gil.token ⟨[[("b", PyObj.int 7)]]⟩ ⟨0⟩ intMarshal "b").1
      = (⟨[[("b", PyObj.int 7)]]⟩ : Interp) :=
  ⟨(set_frame_get_pure Int Gil.token ⟨[[("b", PyObj.int 7)]]⟩ ⟨0⟩ "x" (PyObj.int 1)
      intMarshal "b" (by decide)).1 "b" (by decide),
   (set_frame_get_pure Int Gil.token ⟨[[("b", PyObj.int 7)]]⟩ ⟨0⟩ "x" (PyObj.int 1)
      intMarshal "b" (by decide)).2.2⟩

theorem new_with_gil_ok_shape (gil : Gil) (env : BootstrapEnv) (st st' : Interp)
    (c : Context) (h : Context.new_with_gil gil env st = Except.ok (st', c)) :
    c.globals = st.dicts.length ∧ st'.dicts.length = st.dicts.length + 1 := by
  cases hmd : env.mainDict with
  | none => simp [Context.new_with_gil, hmd] at h
  | some md =>
      by_cases hmf : env.mergeFails
      · simp [Context.new_with_gil, hmd, hmf] at h
      · simp [Context.new_with_gil, hmd, hmf, Interp.alloc] at h
        obtain ⟨hst', hc⟩ := h
        constructor
        · rw [← hc]
        · rw [← hst']
          simp

/-- C8: two independently constructed Contexts are backed by distinct
dictionary objects, a `set` or a `run` on one leaves every binding of the
other's Namespace unchanged, and a `get` on the other never observes
it. -/
theorem context_isolation (gil : Gil) (st0 st1 st2 : Interp)
    (env1 env2 : BootstrapEnv) (c1 c2 : Context)
    (h1 : Context.new_with_gil gil env1 st0 = Except.ok (st1, c1))
    (h2 : Context.new_with_gil gil env2 st1 = Except.ok (st2, c2)) :
    c1.globals ≠ c2.globals
    ∧ (∀ (st : Interp) (n : String) (v : PyObj),
        (Context.set_with_gil gil st c1 n v).readDict c2.globals
          = st.readDict c2.globals)
    ∧ (∀ (st : Interp) (n : String) (v : PyObj),
        (Context.set_with_gil gil st c2 n v).readDict c1.globals
          = st.readDict c1.globals)
    ∧ (∀ (st : Interp) (code : PythonBlock),
        ((Context.run_with_gil gil st c1 code).1).readDict c2.globals
          = st.readDict c2.globals)
    ∧ (∀ (st : Interp) (code : PythonBlock),
        ((Context.run_with_gil gil st c2 code).1).readDict c1.globals
          = st.readDict c1.globals)
    ∧ (∀ (α : Type) (st : Interp) (n : String) (v : PyObj) (m : Marshal α)
        (name : String),
        (Context.get_with_gil gil (Context.set_with_gil gil st c1 n v) c2 m name).2
          = (Context.get_with_gil gil st c2 m name).2) := by
  obtain ⟨hc1, hlen1⟩ := new_with_gil_ok_shape gil env1 st0 st1 c1 h1
  obtain ⟨hc2, _⟩ := new_with_gil_ok_shape gil env2 st1 st2 c2 h2
  have hne : c1.globals ≠ c2.globals := by
    rw [hc1, hc2, hlen1]
    omega
  have hset1 : ∀ (st : Interp) (n : String) (v : PyObj),
      (Context.set_with_gil gil st c1 n v).readDict c2.globals
        = st.readDict c2.globals := fun st n v =>
    Interp.readDict_writeDict_ne st c1.globals c2.globals _ hne
  refine ⟨hne, hset1, ?_, ?_, ?_, ?_⟩
  · intro st n v
    exact Interp.readDict_writeDict_ne st c2.globals c1.globals _ (Ne.symm hne)
  · intro st code
    show ((st.writeDict c1.globals _).writeDict c1.globals _).readDict c2.globals = _
    rw [Interp.readDict_writeDict_ne _ c1.globals c2.globals _ hne,
      Interp.readDict_writeDict_ne _ c1.globals c2.globals _ hne]
  · intro st code
    show ((st.writeDict c2.globals _).writeDict c2.globals _).readDict c1.globals = _
    rw [Interp.readDict_writeDict_ne _ c2.globals c1.globals _ (Ne.symm hne),
      Interp.readDict_writeDict_ne _ c2.globals c1.globals _ (Ne.symm hne)]
  · intro α st n v m name
    simp [Context.get_with_gil, hset1 st n v]

/-- Witness for C8: two contexts bootstrapped one after the other from an
empty main namespace point at distinct dictionary objects, and a `set` on
the first leaves the second's dictionary unchanged. -/
theorem context_isolation_witness :
    ((⟨0⟩ : Context).globals ≠ (⟨1⟩ : Context).globals)
    ∧ (Context.set_with_gil Gil.token ⟨[[], []]⟩ ⟨0⟩ "x"
        (PyObj.int 1)).readDict (⟨1⟩ : Context).globals
      = (⟨[[], []]⟩ : Interp).readDict (⟨1⟩ : Context).globals :=
  ⟨(context_isolation Gil.token ⟨[]⟩ ⟨[[]]⟩ ⟨[[], []]⟩ ⟨some [], false, "E"⟩
      ⟨some [], false, "E"⟩ ⟨0⟩ ⟨1⟩ rfl rfl).1,
   (context_isolation Gil.token ⟨[]⟩ ⟨[[]]⟩ ⟨[[], []]⟩ ⟨some [], false, "E"⟩
      ⟨some [], false, "E"⟩ ⟨0⟩ ⟨1⟩ rfl rfl).2.1 ⟨[[], []]⟩ "x" (PyObj.int 1)⟩

theorem applyOp_length (gil : Gil) (c : Context) (st : Interp) (op : Op) :
    (Context.applyOp gil c st op).dicts.length = st.dicts.length := by
  cases op with
  | set n v =>
      show (st.writeDict c.globals _).dicts.length = st.dicts.length
      exact Interp.length_writeDict st c.globals _
  | run code =>
      show ((st.writeDict c.globals _).writeDict c.globals _).dicts.length = st.dicts.length
      rw [Interp.length_writeDict, Interp.length_writeDict]

theorem applyOp_preserves (gil : Gil) (c : Context) (st : Interp) (op : Op)
    (n : String) (hidx : c.globals < st.dicts.length) (hop : op.preserves n) :
    ((Context.applyOp gil c st op).readDict c.globals).getItem n
      = (st.readDict c.globals).getItem n := by
  cases op with
  | set m v =>
      show ((Context.set_with_gil gil st c m v).readDict c.globals).getItem n = _
      rw [show Context.set_with_gil gil st c m v =
          st.writeDict c.globals ((st.readDict c.globals).setItem m v) from rfl,
        Interp.readDict_writeDict_self st c.globals _ hidx,
        Dict.getItem_setItem_ne _ _ _ _ hop]
  | run code =>
      obtain ⟨hcap, hbyte⟩ := hop
      show (((Context.run_with_gil gil st c code).1).readDict c.globals).getItem n = _
      rw [run_with_gil_eq gil st c code hidx]
      show (((st.writeDict c.globals _).readDict c.globals)).getItem n = _
      rw [Interp.readDict_writeDict_self st c.globals _ hidx, hbyte,
        injectCaptures_getItem_ne _ _ _ hcap]

theorem applyOps_preserves (gil : Gil) (c : Context) (ops : List Op)
    (st : Interp) (n : String) (hidx : c.globals < st.dicts.length)
    (hpres : ∀ op ∈ ops, op.preserves n) :
    ((Context.applyOps gil c st ops).readDict c.globals).getItem n
      = (st.readDict c.globals).getItem n
    ∧ (Context.applyOps gil c st ops).dicts.length = st.dicts.length := by
  induction ops generalizing st with
  | nil => exact ⟨rfl, rfl⟩
  | cons op rest ih =>
      have hidx1 : c.globals < (Context.applyOp gil c st op).dicts.length := by
        rw [applyOp_length]
        exact hidx
      have hrest := ih (Context.applyOp gil c st op) hidx1
        (fun o ho => hpres o (List.mem_cons_of_mem _ ho))
      have hstep : Context.applyOps gil c st (op :: rest)
          = Context.applyOps gil c (Context.applyOp gil c st op) rest := rfl
      constructor
      · rw [hstep, hrest.1,
          applyOp_preserves gil c st op n hidx (hpres op (List.mem_cons_self _ _))]
      · rw [hstep, hrest.2, applyOp_length]

/-- C1: namespace persistence: a Context's Namespace is never replaced by
`run`/`set` calls (the heap of dictionary objects keeps its shape, the
Context keeps pointing at the same one), and a variable bound before any
sequence of `run`/`set` calls remains bound to the same value — and
remains visible through `get` — after the whole sequence, as long as no
later `set`, capture injection or scripted assignment overwrites it. -/
theorem context_namespace_persistence (α : Type) (gil : Gil) (c : Context)
    (st : Interp) (ops : List Op) (n : String) (v : PyObj)
    (hidx : c.globals < st.dicts.length)
    (hpres : ∀ op ∈ ops, op.preserves n)
    (hbound : (st.readDict c.globals).getItem n = some v) :
    ((Context.applyOps gil c st ops).readDict c.globals).getItem n = some v
    ∧ (Context.applyOps gil c st ops).dicts.length = st.dicts.length
    ∧ (∀ (m : Marshal α) (a : α), m.fromPy v = Except.ok a →
        (Context.get_with_gil gil (Context.applyOps gil c st ops) c m n).2
          = GetOutcome.ok a) := by
  obtain ⟨hkeep, hlen⟩ := applyOps_preserves gil c ops st n hidx hpres
  have hkeep' : ((Context.applyOps gil c st ops).readDict c.globals).getItem n = some v :=
    hkeep.trans hbound
  refine ⟨hkeep', hlen, ?_⟩
  intro m a ha
  simp [Context.get_with_gil, hkeep', ha]

/-- Witness for C1: starting from a namespace binding `a ↦ 1`, a `set` of
`y` followed by a `run` that captures `z` and assigns `w` leaves `a ↦ 1`
in place and `get` still returns it. -/
theorem context_namespace_persistence_witness :
    ((Context.applyOps Gil.token ⟨0⟩ ⟨[[("a", PyObj.int 1)]]⟩
        [Op.set "y" (PyObj.int 2),
         Op.run ⟨[("z", PyObj.int 3)],
           fun d => (d.setItem "w" (PyObj.int 4), none)⟩]).readDict 0).getItem "a"
      = some (PyObj.int 1)
    ∧ (Context.get_with_gil Gil.token
        (Context.applyOps Gil.token ⟨0⟩ ⟨[[("a", PyObj.int 1)]]⟩
          [Op.set "y" (PyObj.int 2),
           Op.run ⟨[("z", PyObj.int 3)],
             fun d => (d.setItem "w" (PyObj.int 4), none)⟩]) ⟨0⟩
        intMarshal "a").2 = GetOutcome.ok 1 := by
  have h := context_namespace_persistence Int Gil.token ⟨0⟩ ⟨[[("a", PyObj.int 1)]]⟩
    [Op.set "y" (PyObj.int 2),
     Op.run ⟨[("z", PyObj.int 3)], fun d => (d.setItem "w" (PyObj.int 4), none)⟩]
    "a" (PyObj.int 1) (by decide)
    (by
      intro op hop
      simp only [List.mem_cons, List.not_mem_nil, or_false] at hop
      rcases hop with h1 | h2
      · rw [h1]
        show "y" ≠ "a"
        decide
      · rw [h2]
        refine ⟨?_, ?_⟩
        · intro p hp
          simp only [List.mem_cons, List.not_mem_nil, or_false] at hp
          rw [hp]
          show "z" ≠ "a"
          decide
        · intro d
          exact Dict.getItem_setItem_ne d "w" "a" (PyObj.int 4) (by decide))
    rfl
  exact ⟨h.1, h.2.2 intMarshal 1 rfl⟩
